import Mathlib

/-!
Verification development for the `linkly` link-redirection service
(`src/server/src`).  The Rust source is shallowly embedded: each in-memory
map (link cache, geo cache, session store) is a finite map represented as a
function `String → Option V`, storage and the geolocation network are
parameters of the functions that consult them, and every externally
observable effect of an operation (storage queries, network calls, cache
reads) is counted explicitly in its result.
-/

namespace Linkly

/-- A string-keyed map, modelling the `DashMap`/`HashMap` state of the three
in-memory caches. -/
def SMap (V : Type) : Type := String → Option V

/-- Insert-or-overwrite, modelling `DashMap::insert` / `HashMap::insert`. -/
def SMap.set {V : Type} (m : SMap V) (key : String) (v : V) : SMap V :=
  fun k => if k = key then some v else m k

/-- Deletion, modelling `DashMap::remove` / `HashMap::remove`. -/
def SMap.del {V : Type} (m : SMap V) (key : String) : SMap V :=
  fun k => if k = key then none else m k

/-- The empty map. -/
def SMap.empty {V : Type} : SMap V := fun _ => none

/-! ## Link cache and redirect resolver (`cache.rs`, `handlers/redirect.rs`) -/

/-- `cache.rs`: thread-safe map `short_code → original_url`. -/
def LinkCache : Type := SMap String

/-- `LinkCache::get` (`cache.rs` line 28). -/
def LinkCache.get (c : LinkCache) (short_code : String) : Option String :=
  c short_code

/-- `LinkCache::set` (`cache.rs` line 23): insert or update a mapping. -/
def LinkCache.set (c : LinkCache) (short_code original_url : String) : LinkCache :=
  SMap.set c short_code original_url

/-- The fields of `models::Link` that the redirect path uses. -/
structure Link where
  id : Int
  short_code : String
  original_url : String
deriving Repr, DecidableEq

/-- Outcome of `db::get_link_by_code` (`db.rs` lines 60-73): `Ok(Some(link))`
for an active record, `Ok(None)`, or `Err(_)`. -/
inductive DbResult where
  | found (link : Link)
  | notFound
  | dbError
deriving Repr, DecidableEq

/-- The storage interface consumed by the redirect path: for each short code,
what `db::get_link_by_code` returns. -/
def Storage : Type := String → DbResult

/-- The three responses the resolver part of the `redirect` handler can
produce (`handlers/redirect.rs` lines 24-43): a destination URL (302), a 404,
or a generic 500. -/
inductive RedirectResult where
  | dest (url : String)
  | notFound
  | storageError
deriving Repr, DecidableEq

/-- Result of running the resolver: the response, the link cache afterwards,
and how many storage queries were issued. -/
structure ResolveOut where
  result : RedirectResult
  cache : LinkCache
  dbCalls : Nat

/-- `handlers/redirect.rs` lines 24-43: check the link cache; on a miss query
storage; on `Ok(Some(link))` backfill the cache with
`(link.short_code, link.original_url)` and return the destination. -/
def resolve (cache : LinkCache) (store : Storage) (code : String) : ResolveOut :=
  match cache.get code with
  | some url => { result := .dest url, cache := cache, dbCalls := 0 }
  | none =>
    match store code with
    | .found link =>
      { result := .dest link.original_url
        cache := cache.set link.short_code link.original_url
        dbCalls := 1 }
    | .notFound => { result := .notFound, cache := cache, dbCalls := 1 }
    | .dbError => { result := .storageError, cache := cache, dbCalls := 1 }

/-! ## Session store (`auth.rs`) -/

/-- `auth.rs` line 22: token → creation instant.  Instants are modelled as
natural numbers (readings of a monotone clock), and `created_at.elapsed()`
at time `now` is `now - created`. -/
def Sessions : Type := SMap Nat

/-- `SessionStore::is_valid` (`auth.rs` lines 45-51), in state-passing form so
that the absence of mutation is part of the statement: true iff the token is
present and its age is strictly below the TTL. -/
def is_valid (s : Sessions) (ttl now : Nat) (token : String) : Bool × Sessions :=
  (match s token with
   | some created => decide (now - created < ttl)
   | none => false, s)

/-- The lazy sweep inside `SessionStore::create` (`auth.rs` line 39):
`sessions.retain(|_, created_at| created_at.elapsed() < self.session_duration)`,
pointwise on the map. -/
def sweep (s : Sessions) (ttl now : Nat) : Sessions :=
  fun k =>
    match s k with
    | some created => if now - created < ttl then some created else none
    | none => none

/-- `SessionStore::create` (`auth.rs` lines 35-42).  Token generation
(`Uuid::new_v4`) is nondeterministic, so the fresh token is a parameter.  The
body sweeps expired entries, then inserts the new token at the current
instant. -/
def create (s : Sessions) (ttl now : Nat) (token : String) : String × Sessions :=
  (token, SMap.set (sweep s ttl now) token now)

/-- `SessionStore::remove` (`auth.rs` lines 54-57). -/
def Sessions.remove (s : Sessions) (token : String) : Sessions := SMap.del s token

/-! ## Geolocation (`geo.rs`) -/

/-- A parsed IP address: the result of `std::net::IpAddr::from_str`.  IPv4 as
four octets, IPv6 as eight 16-bit segments. -/
inductive IpAddr where
  | v4 (a b c d : Nat)
  | v6 (s0 s1 s2 s3 s4 s5 s6 s7 : Nat)
deriving Repr, DecidableEq

/-- The IP parser `IpAddr::from_str` is Rust standard library code, modelled
abstractly as any function from strings to optional parsed addresses. -/
def IpParser : Type := String → Option IpAddr

/-- Rust std `Ipv4Addr::is_loopback`: 127.0.0.0/8. -/
def v4IsLoopback (a : Nat) : Bool := a == 127

/-- Rust std `Ipv4Addr::is_link_local`: 169.254.0.0/16. -/
def v4IsLinkLocal (a b : Nat) : Bool := a == 169 && b == 254

/-- Rust std `Ipv4Addr::is_unspecified`: 0.0.0.0. -/
def v4IsUnspecified (a b c d : Nat) : Bool := a == 0 && b == 0 && c == 0 && d == 0

/-- Rust std `Ipv4Addr::is_broadcast`: 255.255.255.255. -/
def v4IsBroadcast (a b c d : Nat) : Bool :=
  a == 255 && b == 255 && c == 255 && d == 255

/-- Rust std `Ipv6Addr::is_loopback`: `::1`. -/
def v6IsLoopback (s0 s1 s2 s3 s4 s5 s6 s7 : Nat) : Bool :=
  s0 == 0 && s1 == 0 && s2 == 0 && s3 == 0 && s4 == 0 && s5 == 0 && s6 == 0 && s7 == 1

/-- Rust std `Ipv6Addr::is_unspecified`: `::`. -/
def v6IsUnspecified (s0 s1 s2 s3 s4 s5 s6 s7 : Nat) : Bool :=
  s0 == 0 && s1 == 0 && s2 == 0 && s3 == 0 && s4 == 0 && s5 == 0 && s6 == 0 && s7 == 0

/-- `geo.rs` line 138: strip the IPv6-mapped IPv4 notation,
`"::ffff:1.2.3.4" → "1.2.3.4"` (`str::strip_prefix`, keeping the original on
no match; the stripped part is 7 ASCII characters). -/
def stripMapped (s : String) : String :=
  if "::ffff:".data.isPrefixOf s.data then ⟨s.data.drop 7⟩ else s

/-- `geo.rs` lines 140-163: the classification applied to the (already
normalized) string — parse it and test the private/reserved ranges; an
unparseable string counts as private. -/
def classifyAddr (parse : IpParser) (ip_str : String) : Bool :=
  match parse ip_str with
  | some (.v4 a b c d) =>
    v4IsLoopback a || v4IsLinkLocal a b || v4IsUnspecified a b c d
      || v4IsBroadcast a b c d
      || a == 10
      || (a == 172 && 16 ≤ b && b ≤ 31)
      || (a == 192 && b == 168)
  | some (.v6 s0 s1 s2 s3 s4 s5 s6 s7) =>
    v6IsLoopback s0 s1 s2 s3 s4 s5 s6 s7
      || v6IsUnspecified s0 s1 s2 s3 s4 s5 s6 s7
      || (s0 &&& 0xffc0) == 0xfe80
      || (s0 &&& 0xfe00) == 0xfc00
  | none => true

/-- `geo.rs` lines 136-164, `is_private`: true for addresses that must never
be sent to the geolocation API.  The string is first normalized by
`stripMapped` (line 138), then classified. -/
def is_private (parse : IpParser) (ip_str : String) : Bool :=
  classifyAddr parse (stripMapped ip_str)

/-- `geo.rs` lines 12-16: geolocation data for a single IP. -/
structure GeoInfo where
  country : String
  region : String
  city : String
deriving Repr, DecidableEq

/-- `geo.rs` lines 21-23: IP string → `Option<GeoInfo>`.  An absent key means
"never attempted"; a present `none` is a negative entry ("tried, no data"). -/
def GeoCache : Type := SMap (Option GeoInfo)

/-- What one round trip to ip-api.com produces, before interpretation:
either a failure on the way (client build error, transport error or JSON
parse error — the `.ok()?` chains of `geo.rs` lines 86-107), or a decoded
`IpApiResponse` (`geo.rs` lines 41-48). -/
inductive NetResponse where
  | failure
  | reply (status : String) (country regionName city : Option String)
deriving Repr, DecidableEq

/-- The network, as the response obtained for each queried IP. -/
def Net : Type := String → NetResponse

/-- `geo.rs` lines 84-131, `fetch_geo`: interpret the response.  A failure or
a non-"success" status yields `none`; blank or missing fields are defaulted
to `""`; an all-blank result is also `none`. -/
def fetch_geo (resp : NetResponse) : Option GeoInfo :=
  match resp with
  | .failure => none
  | .reply status country regionName city =>
    if status ≠ "success" then none
    else
      let c := (Option.filter (fun s => !s.data.isEmpty) country).getD ""
      let r := (Option.filter (fun s => !s.data.isEmpty) regionName).getD ""
      let ci := (Option.filter (fun s => !s.data.isEmpty) city).getD ""
      if c.data.isEmpty && r.data.isEmpty && ci.data.isEmpty then none
      else some { country := c, region := r, city := ci }

/-- Result of one `lookup` call: the returned value, the geo cache afterwards,
and counts of the network calls and geo-cache reads/writes performed. -/
structure LookupOut where
  result : Option GeoInfo
  cache : GeoCache
  netCalls : Nat
  cacheReads : Nat
  cacheWrites : Nat

/-- `geo.rs` lines 62-80, `lookup`: skip private addresses entirely; otherwise
consult the cache (keyed by the ORIGINAL `ip` string), and on a true miss
fetch from the network and store the outcome unconditionally. -/
def lookup (parse : IpParser) (net : Net) (ip : String) (cache : GeoCache) :
    LookupOut :=
  if is_private parse ip then
    { result := none, cache := cache, netCalls := 0, cacheReads := 0, cacheWrites := 0 }
  else
    match cache ip with
    | some entry =>
      { result := entry, cache := cache, netCalls := 0, cacheReads := 1, cacheWrites := 0 }
    | none =>
      let result := fetch_geo (net ip)
      { result := result, cache := SMap.set cache ip result
        netCalls := 1, cacheReads := 1, cacheWrites := 1 }

/-! ## Click pipeline and full redirect handler (`handlers/redirect.rs`) -/

/-- The shared `AppState` fields the redirect path touches: link cache, geo
cache, and the database handle (as the behaviour of `get_link_by_code`). -/
structure AppState where
  cache : LinkCache
  geo_cache : GeoCache
  db : Storage

/-- A row of the `clicks` table as assembled by the spawned task
(`handlers/redirect.rs` lines 101-114). -/
structure Click where
  link_id : Int
  ip : Option String
  user_agent : Option String
  referer : Option String
  browser : Option String
  os : Option String
  device_type : Option String
  country : Option String
  region : Option String
  city : Option String
deriving Repr, DecidableEq

/-- How the spawned click-logging task terminates.  Every constructor is a
normal return: the task never produces an error value. -/
inductive PipeOutcome where
  | abandonedMissing
  | abandonedDbError
  | logged (click : Click) (insertOk : Bool)
deriving Repr, DecidableEq

/-- `handlers/redirect.rs` lines 73-115: the body of the `tokio::spawn`ed
task.  It re-resolves the code against storage (`st.db`, never `st.cache`),
abandons on a missing record or a storage error, resolves geo data through
the shared geo cache, and logs the click, discarding the insert's result
(`let _ = db::log_click(...)`; `insertOk` says whether that insert
succeeded). -/
def clickPipeline (st : AppState) (parse : IpParser) (net : Net)
    (insertOk : Bool) (code : String)
    (ip ua referer browser os device : Option String) :
    PipeOutcome × GeoCache :=
  match st.db code with
  | .notFound => (.abandonedMissing, st.geo_cache)
  | .dbError => (.abandonedDbError, st.geo_cache)
  | .found link =>
    let geoRes : Option GeoInfo × GeoCache :=
      match ip with
      | some ip_str =>
        let out := lookup parse net ip_str st.geo_cache
        (out.result, out.cache)
      | none => (none, st.geo_cache)
    let fields : Option String × Option String × Option String :=
      match geoRes.1 with
      | some info => (some info.country, some info.region, some info.city)
      | none => (none, none, none)
    (.logged
      { link_id := link.id, ip := ip, user_agent := ua, referer := referer
        browser := browser, os := os, device_type := device
        country := fields.1, region := fields.2.1, city := fields.2.2 }
      insertOk,
     geoRes.2)

/-- Model of Rust `str::trim` at the character level: drop whitespace from
both ends. -/
def trimChars (cs : List Char) : List Char :=
  ((cs.dropWhile Char.isWhitespace).reverse.dropWhile Char.isWhitespace).reverse

/-- Character test for `split(',')`: part of the run before the first comma. -/
def notComma (c : Char) : Bool := c ≠ ','

/-- `handlers/redirect.rs` lines 124-141, `extract_ip`: prefer the first
comma-separated entry of `X-Forwarded-For` (trimmed, if non-empty), then a
non-empty `X-Real-IP`, then the stringified socket peer address.  A header
that is absent or not valid UTF-8 is `none`; `split(',').next()` is the
character run before the first comma. -/
def extract_ip (xff realIp : Option String) (peerIp : String) : Option String :=
  let fromXff : Option String :=
    match xff with
    | some v =>
      let ip := trimChars (v.data.takeWhile notComma)
      if ip.isEmpty then none else some ⟨ip⟩
    | none => none
  match fromXff with
  | some ip => some ip
  | none =>
    match realIp with
    | some r => if r.data.isEmpty then some peerIp else some r
    | none => some peerIp

/-- Result of the whole `redirect` handler: the HTTP response, the shared
state afterwards, and the outcome of the spawned task (`none` when no task
was spawned because the resolver failed). -/
structure HandlerOut where
  response : RedirectResult
  state : AppState
  pipeline : Option PipeOutcome

/-- `handlers/redirect.rs` lines 17-119, the `redirect` handler: resolve the
URL (returning 404/500 early), extract metadata, spawn the click-logging
task, and answer with a 302 to the resolved URL.  `dbLater` is the storage
behaviour seen by the spawned task (the record can change in between);
`uaParse` models `parse_user_agent` (the woothee library). -/
def redirectHandler (st : AppState) (dbLater : Storage) (parse : IpParser)
    (net : Net) (insertOk : Bool)
    (uaParse : Option String → Option String × Option String × Option String)
    (code : String) (xff realIp : Option String) (peerIp : String)
    (ua referer : Option String) : HandlerOut :=
  let r := resolve st.cache st.db code
  match r.result with
  | .notFound => { response := .notFound, state := { st with cache := r.cache }, pipeline := none }
  | .storageError =>
    { response := .storageError, state := { st with cache := r.cache }, pipeline := none }
  | .dest url =>
    let ip := extract_ip xff realIp peerIp
    let uaFields := uaParse ua
    let bgState : AppState := { cache := r.cache, geo_cache := st.geo_cache, db := dbLater }
    let bg := clickPipeline bgState parse net insertOk code ip ua referer
      uaFields.1 uaFields.2.1 uaFields.2.2
    { response := .dest url
      state := { cache := r.cache, geo_cache := bg.2, db := st.db }
      pipeline := some bg.1 }

/-! ## Claims about the redirect resolver -/

/-- C1: for every short code the resolver first checks the link cache and on a
hit returns the cached destination with no storage access; on a miss it
queries storage once; an active record backfills the cache (`cache.set`) and
its destination is returned; no active record yields NotFound; a storage
failure yields StorageError. -/
theorem resolver_cache_then_storage (cache : LinkCache) (store : Storage)
    (code : String) :
    (∀ url, cache.get code = some url →
      resolve cache store code =
        { result := .dest url, cache := cache, dbCalls := 0 }) ∧
    (∀ link, cache.get code = none → store code = .found link →
      resolve cache store code =
        { result := .dest link.original_url
          cache := cache.set link.short_code link.original_url
          dbCalls := 1 } ∧
      (cache.set link.short_code link.original_url).get link.short_code =
        some link.original_url) ∧
    (cache.get code = none → store code = .notFound →
      resolve cache store code =
        { result := .notFound, cache := cache, dbCalls := 1 }) ∧
    (cache.get code = none → store code = .dbError →
      resolve cache store code =
        { result := .storageError, cache := cache, dbCalls := 1 }) := by
  refine ⟨?_, ?_, ?_, ?_⟩
  · intro url h
    simp [resolve, h]
  · intro link hc hs
    refine ⟨by simp [resolve, hc, hs], ?_⟩
    simp [LinkCache.get, LinkCache.set, SMap.set]
  · intro hc hs
    simp [resolve, hc, hs]
  · intro hc hs
    simp [resolve, hc, hs]

theorem resolver_cache_then_storage_witness :
    (resolve (LinkCache.set SMap.empty "abc1234" "https://example.com/page")
        (fun _ => .notFound) "abc1234" =
      { result := .dest "https://example.com/page"
        cache := LinkCache.set SMap.empty "abc1234" "https://example.com/page"
        dbCalls := 0 }) ∧
    (resolve SMap.empty
        (fun _ => .found { id := 1, short_code := "zzz9999", original_url := "https://e.com" })
        "zzz9999" =
      { result := .dest "https://e.com"
        cache := LinkCache.set SMap.empty "zzz9999" "https://e.com"
        dbCalls := 1 }) ∧
    (resolve SMap.empty (fun _ => .notFound) "a" =
      { result := .notFound, cache := SMap.empty, dbCalls := 1 }) ∧
    (resolve SMap.empty (fun _ => .dbError) "a" =
      { result := .storageError, cache := SMap.empty, dbCalls := 1 }) :=
  ⟨(resolver_cache_then_storage _ _ "abc1234").1 "https://example.com/page" (by decide),
   ((resolver_cache_then_storage SMap.empty
        (fun _ => .found { id := 1, short_code := "zzz9999", original_url := "https://e.com" })
        "zzz9999").2.1
      { id := 1, short_code := "zzz9999", original_url := "https://e.com" } rfl rfl).1,
   (resolver_cache_then_storage SMap.empty (fun _ => .notFound) "a").2.2.1 rfl rfl,
   (resolver_cache_then_storage SMap.empty (fun _ => .dbError) "a").2.2.2 rfl rfl⟩

/-- C9: a code absent from both the link cache and storage resolves to
NotFound and leaves no entry for that key in the link cache. -/
theorem resolver_absent_no_ghost_entry (cache : LinkCache) (store : Storage)
    (code : String) (hc : cache.get code = none)
    (hs : store code = .notFound) :
    (resolve cache store code).result = .notFound ∧
    ((resolve cache store code).cache).get code = none := by
  constructor
  · simp [resolve, hc, hs]
  · simp [resolve, hc, hs]

theorem resolver_absent_no_ghost_entry_witness :
    (resolve SMap.empty (fun _ => .notFound) "zzz9999").result = .notFound ∧
    ((resolve SMap.empty (fun _ => .notFound) "zzz9999").cache).get "zzz9999" = none :=
  resolver_absent_no_ghost_entry SMap.empty (fun _ => .notFound) "zzz9999" rfl rfl

/-! ## Claims about the session store -/

/-- C6: `is_valid` returns true iff the token is present and its age
(now − creation) is strictly below the TTL, and it leaves the store
untouched. -/
theorem is_valid_iff_fresh (s : Sessions) (ttl now : Nat) (token : String) :
    ((is_valid s ttl now token).1 = true ↔
      ∃ created, s token = some created ∧ now - created < ttl) ∧
    (is_valid s ttl now token).2 = s := by
  refine ⟨?_, rfl⟩
  unfold is_valid
  cases h : s token with
  | none => simp [h]
  | some c => simp [h]

/-- C7: a freshly created token validates immediately; once its age reaches
the TTL it no longer validates; a removed token no longer validates; and
`create` inserts the new token at the current instant after sweeping away
exactly the entries whose age is at least the TTL. -/
theorem session_round_trip (s : Sessions) (ttl now later : Nat)
    (token : String) (httl : 0 < ttl) :
    ((create s ttl now token).1 = token) ∧
    ((is_valid (create s ttl now token).2 ttl now token).1 = true) ∧
    (ttl ≤ later - now →
      (is_valid (create s ttl now token).2 ttl later token).1 = false) ∧
    (∀ s' : Sessions, ∀ t : Nat,
      (is_valid (Sessions.remove s' token) ttl t token).1 = false) ∧
    ((create s ttl now token).2 token = some now) ∧
    (∀ tok' c, tok' ≠ token →
      ((create s ttl now token).2 tok' = some c ↔
        s tok' = some c ∧ now - c < ttl)) := by
  refine ⟨rfl, ?_, ?_, ?_, ?_, ?_⟩
  · simp [create, is_valid, SMap.set, httl]
  · intro hage
    simp [create, is_valid, SMap.set, Nat.not_lt.mpr hage]
  · intro s' t
    simp [is_valid, Sessions.remove, SMap.del]
  · simp [create, SMap.set]
  · intro tok' c hne
    simp only [create, SMap.set, if_neg hne, sweep]
    cases h : s tok' with
    | none => simp [h]
    | some d =>
      by_cases hd : now - d < ttl
      · simp [h, hd]
        intro he
        subst he
        exact hd
      · simp [h, hd]
        intro he
        subst he
        exact Nat.not_lt.mp hd

theorem session_round_trip_witness :
    ((is_valid (create SMap.empty 1 0 "t").2 1 0 "t").1 = true) ∧
    ((is_valid (create SMap.empty 1 0 "t").2 1 5 "t").1 = false) ∧
    ((is_valid (Sessions.remove (create SMap.empty 1 0 "t").2 "t") 1 0 "t").1 = false) :=
  ⟨(session_round_trip SMap.empty 1 0 5 "t" (by decide)).2.1,
   (session_round_trip SMap.empty 1 0 5 "t" (by decide)).2.2.1 (by decide),
   (session_round_trip SMap.empty 1 0 5 "t" (by decide)).2.2.2.1 _ 0⟩

/-! ## Claims about the geolocation resolver -/

/-- The spec's list of unresolvable-by-policy addresses, written from the
spec's words for comparison with the code's `is_private`: loopback,
link-local, unspecified, broadcast, the RFC1918 ranges 10/8, 172.16/12 and
192.168/16 for IPv4; loopback, unspecified, link-local fe80::/10 and
unique-local fc00::/7 for IPv6; and syntactically unparseable strings —
after normalizing IPv6-mapped-IPv4 notation. -/
def unresolvableByPolicy (parse : IpParser) (s : String) : Bool :=
  match parse (stripMapped s) with
  | some (.v4 a b c d) =>
    v4IsLoopback a || v4IsLinkLocal a b || v4IsUnspecified a b c d
      || v4IsBroadcast a b c d
      || a == 10
      || (a == 172 && 16 ≤ b && b ≤ 31)
      || (a == 192 && b == 168)
  | some (.v6 s0 s1 s2 s3 s4 s5 s6 s7) =>
    v6IsLoopback s0 s1 s2 s3 s4 s5 s6 s7
      || v6IsUnspecified s0 s1 s2 s3 s4 s5 s6 s7
      || (s0 &&& 0xffc0) == 0xfe80
      || (s0 &&& 0xfe00) == 0xfc00
  | none => true

/-- C2: for every IP string in the unresolvable-by-policy classes (private,
loopback, link-local, unspecified, broadcast, reserved IPv6, unparseable),
`lookup` returns `none`, issues no network call, and neither reads nor
writes the geo cache. -/
theorem geo_policy_short_circuit (parse : IpParser) (net : Net) (ip : String)
    (cache : GeoCache) (h : unresolvableByPolicy parse ip = true) :
    lookup parse net ip cache =
      { result := none, cache := cache, netCalls := 0
        cacheReads := 0, cacheWrites := 0 } := by
  have hp : is_private parse ip = true := by
    unfold is_private classifyAddr
    unfold unresolvableByPolicy at h
    exact h
  simp [lookup, hp]

theorem geo_policy_short_circuit_witness :
    lookup (fun _ => some (.v4 10 0 0 1)) (fun _ => .failure) "10.0.0.1" SMap.empty =
      { result := none, cache := SMap.empty, netCalls := 0
        cacheReads := 0, cacheWrites := 0 } :=
  geo_policy_short_circuit _ _ _ _ (by decide)

/-- C3: for a public (non-private, parseable) IP, two `lookup` calls issue at
most one network call in total, the second call issues none and returns the
same result as the first; after the first call the cache holds an entry for
that exact IP; any call finding an entry (positive or negative) returns it
with no network call; and lookups of other IPs never disturb that entry. -/
theorem geo_lookup_idempotent (parse : IpParser) (net : Net) (ip : String)
    (cache : GeoCache) (h : is_private parse ip = false) :
    (lookup parse net ip cache).netCalls +
      (lookup parse net ip (lookup parse net ip cache).cache).netCalls ≤ 1 ∧
    (lookup parse net ip (lookup parse net ip cache).cache).netCalls = 0 ∧
    (lookup parse net ip (lookup parse net ip cache).cache).result =
      (lookup parse net ip cache).result ∧
    (lookup parse net ip cache).cache ip = some (lookup parse net ip cache).result ∧
    (∀ cache' : GeoCache, ∀ e, cache' ip = some e →
      lookup parse net ip cache' =
        { result := e, cache := cache', netCalls := 0
          cacheReads := 1, cacheWrites := 0 }) ∧
    (∀ ip', ip' ≠ ip → ∀ cache' : GeoCache,
      (lookup parse net ip' cache').cache ip = cache' ip) := by
  refine ⟨?_, ?_, ?_, ?_, ?_, ?_⟩
  · unfold lookup
    cases hc : cache ip with
    | some entry => simp [h, hc]
    | none => simp [h, hc, SMap.set]
  · unfold lookup
    cases hc : cache ip with
    | some entry => simp [h, hc]
    | none => simp [h, hc, SMap.set]
  · unfold lookup
    cases hc : cache ip with
    | some entry => simp [h, hc]
    | none => simp [h, hc, SMap.set]
  · unfold lookup
    cases hc : cache ip with
    | some entry => simp [h, hc]
    | none => simp [h, hc, SMap.set]
  · intro cache' e he
    simp [lookup, h, he]
  · intro ip' hne cache'
    unfold lookup
    by_cases hp : is_private parse ip'
    · simp [hp]
    · cases hc : cache' ip' with
      | some entry => simp [hp, hc]
      | none =>
        simp [hp, hc, SMap.set]
        intro hk
        exact absurd hk.symm hne

theorem geo_lookup_idempotent_witness :
    (lookup (fun _ => some (.v4 8 8 8 8)) (fun _ => .failure) "8.8.8.8"
      (lookup (fun _ => some (.v4 8 8 8 8)) (fun _ => .failure) "8.8.8.8"
        SMap.empty).cache).netCalls = 0 :=
  (geo_lookup_idempotent (fun _ => some (.v4 8 8 8 8)) (fun _ => .failure)
    "8.8.8.8" SMap.empty (by decide)).2.1

/-- C4: when the network lookup actually runs (public IP, cache miss), a
transport/parse failure, a non-success status, or a structurally empty
result each yield `none`; the returned value is exactly `fetch_geo` of the
response; and that value — negative or positive — is stored in the geo cache
under the looked-up IP. -/
theorem geo_fetch_interpretation (parse : IpParser) (net : Net) (ip : String)
    (cache : GeoCache) (hp : is_private parse ip = false)
    (hm : cache ip = none) :
    (net ip = .failure → (lookup parse net ip cache).result = none) ∧
    (∀ st c r ci, net ip = .reply st c r ci → st ≠ "success" →
      (lookup parse net ip cache).result = none) ∧
    (∀ c r ci, net ip = .reply "success" c r ci →
      (c = none ∨ c = some "") → (r = none ∨ r = some "") →
      (ci = none ∨ ci = some "") →
      (lookup parse net ip cache).result = none) ∧
    ((lookup parse net ip cache).result = fetch_geo (net ip)) ∧
    ((lookup parse net ip cache).cache ip = some (lookup parse net ip cache).result) := by
  have hres : lookup parse net ip cache =
      { result := fetch_geo (net ip), cache := SMap.set cache ip (fetch_geo (net ip))
        netCalls := 1, cacheReads := 1, cacheWrites := 1 } := by
    simp [lookup, hp, hm]
  refine ⟨?_, ?_, ?_, ?_, ?_⟩
  · intro hnet
    simp [hres, hnet, fetch_geo]
  · intro st c r ci hnet hst
    simp [hres, hnet, fetch_geo, hst]
  · intro c r ci hnet hc hr hci
    rcases hc with hc | hc <;> rcases hr with hr | hr <;> rcases hci with hci | hci <;>
      simp [hres, hnet, fetch_geo, hc, hr, hci, Option.filter]
  · simp [hres]
  · simp [hres, SMap.set]

theorem geo_fetch_interpretation_witness :
    (lookup (fun _ => some (.v4 8 8 8 9)) (fun _ => .reply "success" none (some "") none)
      "8.8.8.9" SMap.empty).result = none :=
  (geo_fetch_interpretation (fun _ => some (.v4 8 8 8 9))
      (fun _ => .reply "success" none (some "") none) "8.8.8.9" SMap.empty
      (by decide) rfl).2.2.1 none (some "") none rfl (Or.inl rfl)
    (Or.inr rfl) (Or.inl rfl)

/-- C8 counterexample: the geo cache is NOT keyed by the normalized form.
With a parser that recognizes `8.8.8.8`, looking up the mapped spelling
`::ffff:8.8.8.8` (classified public after stripping) stores the entry under
the ORIGINAL mapped string: the stripped key stays absent, and a subsequent
lookup of `8.8.8.8` misses the cache and issues a second network call — the
two spellings denote two distinct cache entries. -/
theorem geo_cache_mapped_key_counterexample :
    ((lookup (fun s => if s = "8.8.8.8" then some (.v4 8 8 8 8) else none)
        (fun _ => .reply "success" (some "US") (some "CA") (some "MV"))
        "::ffff:8.8.8.8" SMap.empty).cache "8.8.8.8" = none) ∧
    ((lookup (fun s => if s = "8.8.8.8" then some (.v4 8 8 8 8) else none)
        (fun _ => .reply "success" (some "US") (some "CA") (some "MV"))
        "::ffff:8.8.8.8" SMap.empty).cache "::ffff:8.8.8.8" ≠ none) ∧
    ((lookup (fun s => if s = "8.8.8.8" then some (.v4 8 8 8 8) else none)
        (fun _ => .reply "success" (some "US") (some "CA") (some "MV"))
        "8.8.8.8"
        (lookup (fun s => if s = "8.8.8.8" then some (.v4 8 8 8 8) else none)
          (fun _ => .reply "success" (some "US") (some "CA") (some "MV"))
          "::ffff:8.8.8.8" SMap.empty).cache).netCalls = 1) := by
  refine ⟨by decide, by decide, by decide⟩

/-- C8 (amended): IPv6-mapped-IPv4 notation is normalized to the embedded
IPv4 form before the private/reserved classification (`is_private` is the
classification of the stripped string), but the geo cache is keyed by the
ORIGINAL IP string: a miss writes exactly the looked-up key and leaves every
other key — including the stripped spelling when it differs — unchanged. -/
theorem geo_normalize_for_classification_only (parse : IpParser) (net : Net)
    (ip : String) (cache : GeoCache) (hp : is_private parse ip = false)
    (hm : cache ip = none) :
    (∀ s : String, is_private parse s = classifyAddr parse (stripMapped s)) ∧
    ((lookup parse net ip cache).cache ip = some (fetch_geo (net ip))) ∧
    (∀ k, k ≠ ip → (lookup parse net ip cache).cache k = cache k) := by
  refine ⟨fun _ => rfl, ?_, ?_⟩
  · simp [lookup, hp, hm, SMap.set]
  · intro k hk
    simp [lookup, hp, hm, SMap.set, hk]

theorem geo_normalize_for_classification_only_witness :
    (lookup (fun s => if s = "8.8.8.8" then some (.v4 8 8 8 8) else none)
        (fun _ => .failure) "::ffff:8.8.8.8" SMap.empty).cache "8.8.8.8" =
      (SMap.empty : GeoCache) "8.8.8.8" :=
  (geo_normalize_for_classification_only
      (fun s => if s = "8.8.8.8" then some (.v4 8 8 8 8) else none)
      (fun _ => .failure) "::ffff:8.8.8.8" SMap.empty (by decide) rfl).2.2
    "8.8.8.8" (by decide)

/-! ## Claims about the click pipeline and IP extraction -/

/-- C5: the detached click pipeline is isolated from the redirect response:
the response equals the resolver's result and is unchanged under any change
of the background environment (later storage state, IP parser, network,
insert success); the pipeline's outcome ignores the link cache (the
re-resolution goes to storage); and a missing record or a storage error
during re-resolution ends the pipeline in a silent abandon, never in an
error the caller could see. -/
theorem click_pipeline_isolated (st : AppState) (dbL dbL' : Storage)
    (parse parse' : IpParser) (net net' : Net) (ok ok' : Bool)
    (uaP : Option String → Option String × Option String × Option String)
    (code : String) (xff realIp : Option String) (peerIp : String)
    (ua referer : Option String) :
    ((redirectHandler st dbL parse net ok uaP code xff realIp peerIp ua referer).response =
      (redirectHandler st dbL' parse' net' ok' uaP code xff realIp peerIp ua referer).response) ∧
    ((redirectHandler st dbL parse net ok uaP code xff realIp peerIp ua referer).response =
      (resolve st.cache st.db code).result) ∧
    (∀ c₁ c₂ geo db ip br osf dev,
      clickPipeline { cache := c₁, geo_cache := geo, db := db } parse net ok
          code ip ua referer br osf dev =
        clickPipeline { cache := c₂, geo_cache := geo, db := db } parse net ok
          code ip ua referer br osf dev) ∧
    (∀ stp ip br osf dev, stp.db code = .notFound →
      (clickPipeline stp parse net ok code ip ua referer br osf dev).1 =
        .abandonedMissing) ∧
    (∀ stp ip br osf dev, stp.db code = .dbError →
      (clickPipeline stp parse net ok code ip ua referer br osf dev).1 =
        .abandonedDbError) ∧
    (∀ stp ip br osf dev link, stp.db code = .found link →
      ∃ click, (clickPipeline stp parse net ok code ip ua referer br osf dev).1 =
        .logged click ok) := by
  refine ⟨?_, ?_, ?_, ?_, ?_, ?_⟩
  · cases h : (resolve st.cache st.db code).result <;> simp [redirectHandler, h]
  · cases h : (resolve st.cache st.db code).result <;> simp [redirectHandler, h]
  · intro c₁ c₂ geo db ip br osf dev
    rfl
  · intro stp ip br osf dev h
    simp [clickPipeline, h]
  · intro stp ip br osf dev h
    simp [clickPipeline, h]
  · intro stp ip br osf dev link h
    refine ⟨?_, ?_⟩
    · exact
        { link_id := link.id, ip := ip, user_agent := ua, referer := referer
          browser := br, os := osf, device_type := dev
          country :=
            (match (match ip with
              | some ip_str => ((lookup parse net ip_str stp.geo_cache).result,
                  (lookup parse net ip_str stp.geo_cache).cache)
              | none => (none, stp.geo_cache)).1 with
              | some info => (some info.country, some info.region, some info.city)
              | none => (none, none, none)).1
          region :=
            (match (match ip with
              | some ip_str => ((lookup parse net ip_str stp.geo_cache).result,
                  (lookup parse net ip_str stp.geo_cache).cache)
              | none => (none, stp.geo_cache)).1 with
              | some info => (some info.country, some info.region, some info.city)
              | none => (none, none, none)).2.1
          city :=
            (match (match ip with
              | some ip_str => ((lookup parse net ip_str stp.geo_cache).result,
                  (lookup parse net ip_str stp.geo_cache).cache)
              | none => (none, stp.geo_cache)).1 with
              | some info => (some info.country, some info.region, some info.city)
              | none => (none, none, none)).2.2 }
    · simp [clickPipeline, h]

theorem click_pipeline_isolated_witness :
    ((redirectHandler
        { cache := LinkCache.set SMap.empty "c" "https://e.com"
          geo_cache := SMap.empty, db := fun _ => .notFound }
        (fun _ => .notFound) (fun _ => none) (fun _ => .failure) true
        (fun _ => (none, none, none)) "c" none none "1.1.1.1" none none).response =
      (redirectHandler
        { cache := LinkCache.set SMap.empty "c" "https://e.com"
          geo_cache := SMap.empty, db := fun _ => .notFound }
        (fun _ => .dbError) (fun _ => some (.v4 1 1 1 1)) (fun _ => .failure) false
        (fun _ => (none, none, none)) "c" none none "1.1.1.1" none none).response) ∧
    ((clickPipeline { cache := SMap.empty, geo_cache := SMap.empty, db := fun _ => .notFound }
        (fun _ => none) (fun _ => .failure) true "c" none none none none none none).1 =
      .abandonedMissing) :=
  ⟨(click_pipeline_isolated
      { cache := LinkCache.set SMap.empty "c" "https://e.com"
        geo_cache := SMap.empty, db := fun _ => .notFound }
      (fun _ => .notFound) (fun _ => .dbError) (fun _ => none)
      (fun _ => some (.v4 1 1 1 1)) (fun _ => .failure) (fun _ => .failure)
      true false (fun _ => (none, none, none)) "c" none none "1.1.1.1" none none).1,
   (click_pipeline_isolated
      { cache := LinkCache.set SMap.empty "c" "https://e.com"
        geo_cache := SMap.empty, db := fun _ => .notFound }
      (fun _ => .notFound) (fun _ => .dbError) (fun _ => none)
      (fun _ => some (.v4 1 1 1 1)) (fun _ => .failure) (fun _ => .failure)
      true false (fun _ => (none, none, none)) "c" none none "1.1.1.1" none none).2.2.2.1
     { cache := SMap.empty, geo_cache := SMap.empty, db := fun _ => .notFound }
     none none none none rfl⟩

/-- C10: `extract_ip` never yields an absent IP: it always returns `some`
string — the trimmed first comma-separated entry of X-Forwarded-For when
non-empty, else a non-empty X-Real-IP value, else the stringified socket
peer address. -/
theorem extract_ip_never_absent (xff realIp : Option String) (peerIp : String) :
    ((extract_ip xff realIp peerIp).isSome = true) ∧
    (∀ v, xff = some v →
      trimChars (v.data.takeWhile notComma) ≠ [] →
      extract_ip xff realIp peerIp =
        some ⟨trimChars (v.data.takeWhile notComma)⟩) ∧
    (xff = none → ∀ r, realIp = some r → r.data ≠ [] →
      extract_ip xff realIp peerIp = some r) ∧
    (xff = none → realIp = none → extract_ip xff realIp peerIp = some peerIp) ∧
    (∀ v, xff = some v →
      trimChars (v.data.takeWhile notComma) = [] →
      realIp = none → extract_ip xff realIp peerIp = some peerIp) := by
  refine ⟨?_, ?_, ?_, ?_, ?_⟩
  · unfold extract_ip
    cases xff with
    | some v =>
      by_cases hv : trimChars (v.data.takeWhile notComma) = []
      · cases realIp with
        | some r => by_cases hr : r.data = [] <;> simp [hv, hr]
        | none => simp [hv]
      · simp [hv]
    | none =>
      cases realIp with
      | some r => by_cases hr : r.data = [] <;> simp [hr]
      | none => simp
  · intro v hx hv
    simp [extract_ip, hx, hv]
  · intro hx r hr hre
    simp [extract_ip, hx, hr, hre]
  · intro hx hr
    simp [extract_ip, hx, hr]
  · intro v hx hv hr
    simp [extract_ip, hx, hv, hr]

theorem extract_ip_never_absent_witness :
    ((extract_ip (some "1.2.3.4, 5.6.7.8") none "9.9.9.9").isSome = true) ∧
    (extract_ip (some "1.2.3.4, 5.6.7.8") none "9.9.9.9" = some "1.2.3.4") :=
  ⟨(extract_ip_never_absent (some "1.2.3.4, 5.6.7.8") none "9.9.9.9").1,
   by
    rw [(extract_ip_never_absent (some "1.2.3.4, 5.6.7.8") none "9.9.9.9").2.1
      "1.2.3.4, 5.6.7.8" rfl (by decide)]
    decide⟩

end Linkly
